import Mathlib

/-!
Shallow embedding of the duotone photo transform of the brave-pink
repository.

Two variants of applyDuotoneEffect occur in the source:
* the multiplier variant, which rewrites each RGB channel to
  Math.min(255, avg * multiplier) where avg = (R + G + B) / 3;
* the anchor-color variant, which linearly interpolates each channel
  between a shadow color and a highlight color, both decoded from hex
  string literals, by ratio = avg / 255.

In both variants, the rewritten value is stored into the
Uint8ClampedArray returned by getImageData; per the ECMAScript
specification, that store clamps the number to the byte range 0..255
and rounds to the nearest integer, ties to even (ToUint8Clamp).  Pixel
samples are modelled as integers, intermediate arithmetic as exact
rationals.

The surrounding pipeline (processImage, the param-change effect, the
completion of in-flight transforms) is embedded as explicit state
passing over an AppState record mirroring the React component state.
-/

namespace BravePink

/-- Round half to even: the rounding step of the ECMAScript
ToUint8Clamp operation applied when a number is stored into a
Uint8ClampedArray. -/
def roundHalfEven (x : ℚ) : ℤ :=
  if x - ⌊x⌋ < 1 / 2 then ⌊x⌋
  else if (1 : ℚ) / 2 < x - ⌊x⌋ then ⌊x⌋ + 1
  else if ⌊x⌋ % 2 = 0 then ⌊x⌋ else ⌊x⌋ + 1

/-- ECMAScript ToUint8Clamp: the conversion performed when assigning a
number into an element of a Uint8ClampedArray (ImageData.data). -/
def toUint8Clamp (x : ℚ) : ℤ :=
  if x ≤ 0 then 0
  else if 255 ≤ x then 255
  else roundHalfEven x

/-- The duotone parameters of the multiplier variant
(interface DuotoneParams). -/
structure DuotoneParams where
  redMultiplier : ℚ
  greenMultiplier : ℚ
  blueMultiplier : ℚ
deriving DecidableEq

/-- const DEFAULT_DUOTONE_PARAMS: redMultiplier 0.5, greenMultiplier
0.2, blueMultiplier 1.2. -/
def DEFAULT_DUOTONE_PARAMS : DuotoneParams :=
  { redMultiplier := 1 / 2, greenMultiplier := 1 / 5, blueMultiplier := 6 / 5 }

/-- const avg = (data[i] + data[i + 1] + data[i + 2]) / 3. -/
def avgOf (r g b : ℤ) : ℚ := ((r : ℚ) + (g : ℚ) + (b : ℚ)) / 3

/-- One pixel of the multiplier-variant loop body:
data[i + c] = Math.min(255, avg * params.cMultiplier), the assignment
clamping through ToUint8Clamp. -/
def multPixel (p : DuotoneParams) (r g b : ℤ) : ℤ × ℤ × ℤ :=
  (toUint8Clamp (min 255 (avgOf r g b * p.redMultiplier)),
   toUint8Clamp (min 255 (avgOf r g b * p.greenMultiplier)),
   toUint8Clamp (min 255 (avgOf r g b * p.blueMultiplier)))

/-- The multiplier-variant loop over the flat RGBA data array: each
group of four samples has its R, G, B rewritten and its alpha left
untouched (the loop strides by 4 and never assigns data[i + 3]). -/
def multLoop (p : DuotoneParams) : List ℤ → List ℤ
  | r :: g :: b :: a :: rest =>
    (multPixel p r g b).1 :: (multPixel p r g b).2.1 :: (multPixel p r g b).2.2 ::
      a :: multLoop p rest
  | l => l

/-- A decoded image: width, height and the flat interleaved RGBA sample
list obtained from getImageData (ImageData). -/
structure PixelBuffer where
  width : ℕ
  height : ℕ
  data : List ℤ
deriving DecidableEq

/-- A PixelBuffer is valid when its data length is width*height*4 and
every sample is a byte. -/
def PixelBuffer.valid (pb : PixelBuffer) : Prop :=
  pb.data.length = pb.width * pb.height * 4 ∧ ∀ x ∈ pb.data, 0 ≤ x ∧ x ≤ 255

namespace MultiplierMode

/-- applyDuotoneEffect of the multiplier variant, restricted to its
pixel-rewriting core: the canvas is resized to the image dimensions, so
the output buffer keeps the input width and height, and the loop
rewrites the data in place. -/
def applyDuotoneEffect (p : DuotoneParams) (pb : PixelBuffer) : PixelBuffer :=
  { width := pb.width, height := pb.height, data := multLoop p pb.data }

end MultiplierMode

/-- An RGB triple as produced by hexToRgb. -/
structure Rgb where
  r : ℕ
  g : ℕ
  b : ℕ
deriving DecidableEq

/-- The value of one hexadecimal digit character, as parseInt with
radix 16 assigns it. -/
def hexDigitVal (c : Char) : ℕ :=
  if ('0' ≤ c ∧ c ≤ '9') then c.toNat - 48
  else if ('a' ≤ c ∧ c ≤ 'f') then c.toNat - 97 + 10
  else if ('A' ≤ c ∧ c ≤ 'F') then c.toNat - 65 + 10
  else 0

/-- parseInt(hex.substring(i, i + 2), 16): the two-hex-digit slice of
the color string starting at index i. -/
def parseIntHex2 (s : String) (i : ℕ) : ℕ :=
  16 * hexDigitVal (s.toList.getD i '0') + hexDigitVal (s.toList.getD (i + 1) '0')

/-- const hexToRgb = (hex) => ... : decodes a #rrggbb string into its
three byte channels. -/
def hexToRgb (hex : String) : Rgb :=
  { r := parseIntHex2 hex 1, g := parseIntHex2 hex 3, b := parseIntHex2 hex 5 }

/-- const highlightColor = hexToRgb("#f99fd2"). -/
def highlightColor : Rgb := hexToRgb "#f99fd2"

/-- const shadowColor = hexToRgb("#165027"). -/
def shadowColor : Rgb := hexToRgb "#165027"

/-- const ratio = avg / 255. -/
def ratioOf (r g b : ℤ) : ℚ := avgOf r g b / 255

/-- One pixel of the anchor-variant loop body:
data[i + c] = Math.min(255, shadowColor.c + (highlightColor.c -
shadowColor.c) * ratio), the assignment clamping through
ToUint8Clamp. -/
def anchorPixel (shadow highlight : Rgb) (r g b : ℤ) : ℤ × ℤ × ℤ :=
  (toUint8Clamp (min 255 ((shadow.r : ℚ) + ((highlight.r : ℚ) - (shadow.r : ℚ)) * ratioOf r g b)),
   toUint8Clamp (min 255 ((shadow.g : ℚ) + ((highlight.g : ℚ) - (shadow.g : ℚ)) * ratioOf r g b)),
   toUint8Clamp (min 255 ((shadow.b : ℚ) + ((highlight.b : ℚ) - (shadow.b : ℚ)) * ratioOf r g b)))

/-- The anchor-variant loop over the flat RGBA data array, with the
fixed shadow and highlight colors inlined as in the source. -/
def anchorLoop : List ℤ → List ℤ
  | r :: g :: b :: a :: rest =>
    (anchorPixel shadowColor highlightColor r g b).1 ::
      (anchorPixel shadowColor highlightColor r g b).2.1 ::
      (anchorPixel shadowColor highlightColor r g b).2.2 :: a :: anchorLoop rest
  | l => l

namespace AnchorMode

/-- applyDuotoneEffect of the anchor-color variant, restricted to its
pixel-rewriting core. -/
def applyDuotoneEffect (pb : PixelBuffer) : PixelBuffer :=
  { width := pb.width, height := pb.height, data := anchorLoop pb.data }

end AnchorMode

/-- How one invocation of applyDuotoneEffect settles, as seen from the
awaiting caller.  The promise resolves with the image load signal:
onload yields a decoded buffer, onerror fires for an undecodable
source, and a missing 2d context resolves null before any load. -/
inductive LoadOutcome where
  | loaded (buf : PixelBuffer)
  | errored
  | ctxUnavailable
deriving DecidableEq

/-- The resolved value of the promise returned by applyDuotoneEffect
(multiplier variant): the processed buffer (re-encoded for display,
which we identify with the buffer) on load, and null on load error, on
a missing context, or on an exception inside onload (the catch resolves
null).  The promise never rejects. -/
def applyDuotoneEffectResolved (p : DuotoneParams) : LoadOutcome → Option PixelBuffer
  | .loaded buf => some (MultiplierMode.applyDuotoneEffect p buf)
  | .errored => none
  | .ctxUnavailable => none

/-- The component state touched by the pipeline: originalImage,
duotoneImage and isProcessing of the App component. -/
structure AppState where
  originalImage : Option String
  duotoneImage : Option PixelBuffer
  isProcessing : Bool
deriving DecidableEq

/-- processImage(imageSrc): sets isProcessing, awaits
applyDuotoneEffect, stores its resolved value with setDuotoneImage, and
clears isProcessing in the finally block.  The catch block (which would
also clear originalImage) is unreachable because the awaited promise
resolves null instead of rejecting, so originalImage is left as is. -/
def processImage (st : AppState) (p : DuotoneParams) (o : LoadOutcome) : AppState :=
  { st with duotoneImage := applyDuotoneEffectResolved p o, isProcessing := false }

/-- The tail of one in-flight processImage call once its awaited
promise resolves: setDuotoneImage(result) then
setIsProcessing(false), with no guard against the call having been
superseded. -/
def completeProcessImage (st : AppState) (result : Option PixelBuffer) : AppState :=
  { st with duotoneImage := result, isProcessing := false }

/-- Several in-flight processImage calls completing one after the
other, in completion order. -/
def runCompletions (st : AppState) (results : List (Option PixelBuffer)) : AppState :=
  results.foldl completeProcessImage st

/-- The useEffect on duotoneParams and originalImage: every parameter
change re-invokes processImage on originalImage (never on a previously
transformed buffer). -/
def rerunOnParamChange (orig : PixelBuffer) (st : AppState) (p : DuotoneParams) : AppState :=
  processImage st p (.loaded orig)

/-! ### Basic lemmas about the rounding and clamping step -/

lemma floor_le_roundHalfEven (x : ℚ) : ⌊x⌋ ≤ roundHalfEven x := by
  unfold roundHalfEven
  split_ifs <;> omega

lemma roundHalfEven_le_floor_add_one (x : ℚ) : roundHalfEven x ≤ ⌊x⌋ + 1 := by
  unfold roundHalfEven
  split_ifs <;> omega

lemma roundHalfEven_mono {x y : ℚ} (h : x ≤ y) : roundHalfEven x ≤ roundHalfEven y := by
  rcases lt_or_le ⌊x⌋ ⌊y⌋ with hf | hf
  · have h1 := roundHalfEven_le_floor_add_one x
    have h2 := floor_le_roundHalfEven y
    omega
  · have hfe : ⌊y⌋ = ⌊x⌋ := le_antisymm hf (Int.floor_mono h)
    unfold roundHalfEven
    rw [hfe]
    split_ifs <;> first | omega | linarith

lemma roundHalfEven_intCast (n : ℤ) : roundHalfEven (n : ℚ) = n := by
  unfold roundHalfEven
  rw [Int.floor_intCast]
  rw [if_pos (by norm_num)]

lemma roundHalfEven_nonneg {x : ℚ} (hx : 0 < x) : 0 ≤ roundHalfEven x := by
  have h1 := floor_le_roundHalfEven x
  have h2 : (0 : ℤ) ≤ ⌊x⌋ := Int.floor_nonneg.mpr hx.le
  omega

lemma roundHalfEven_le_255 {x : ℚ} (hx : x < 255) : roundHalfEven x ≤ 255 := by
  have h1 := roundHalfEven_le_floor_add_one x
  have h2 : ⌊x⌋ < (255 : ℤ) := Int.floor_lt.mpr (by exact_mod_cast hx)
  omega

lemma toUint8Clamp_nonneg (x : ℚ) : 0 ≤ toUint8Clamp x := by
  unfold toUint8Clamp
  split_ifs with h1 h2
  · omega
  · omega
  · exact roundHalfEven_nonneg (lt_of_not_le h1)

lemma toUint8Clamp_le (x : ℚ) : toUint8Clamp x ≤ 255 := by
  unfold toUint8Clamp
  split_ifs with h1 h2
  · omega
  · omega
  · exact roundHalfEven_le_255 (lt_of_not_le h2)

lemma toUint8Clamp_mono {x y : ℚ} (h : x ≤ y) : toUint8Clamp x ≤ toUint8Clamp y := by
  by_cases hx0 : x ≤ 0
  · rw [toUint8Clamp, if_pos hx0]
    exact toUint8Clamp_nonneg y
  · by_cases hx255 : (255 : ℚ) ≤ x
    · have hy255 : (255 : ℚ) ≤ y := le_trans hx255 h
      rw [toUint8Clamp, if_neg hx0, if_pos hx255, toUint8Clamp,
        if_neg (not_le.mpr (by linarith)), if_pos hy255]
    · rw [toUint8Clamp, if_neg hx0, if_neg hx255]
      by_cases hy255 : (255 : ℚ) ≤ y
      · rw [toUint8Clamp, if_neg (not_le.mpr (by linarith)), if_pos hy255]
        exact roundHalfEven_le_255 (lt_of_not_le hx255)
      · rw [toUint8Clamp, if_neg (not_le.mpr (by linarith)), if_neg hy255]
        exact roundHalfEven_mono h

lemma toUint8Clamp_intCast {n : ℤ} (h1 : 0 < n) (h2 : n < 255) :
    toUint8Clamp (n : ℚ) = n := by
  have hA : ¬ ((n : ℚ) ≤ 0) := not_le.mpr (by exact_mod_cast h1)
  have hB : ¬ ((255 : ℚ) ≤ (n : ℚ)) := not_le.mpr (by exact_mod_cast h2)
  rw [toUint8Clamp, if_neg hA, if_neg hB, roundHalfEven_intCast]

lemma toUint8Clamp_eq_of_eq_intCast {x : ℚ} {n : ℤ} (h : x = (n : ℚ))
    (h1 : 0 < n) (h2 : n < 255) : toUint8Clamp x = n := by
  rw [h]
  exact toUint8Clamp_intCast h1 h2

lemma toUint8Clamp_between {lo hi : ℤ} (hlo : 0 < lo) (hhi : hi < 255) {x : ℚ}
    (h1 : (lo : ℚ) ≤ x) (h2 : x ≤ (hi : ℚ)) :
    lo ≤ toUint8Clamp x ∧ toUint8Clamp x ≤ hi := by
  have hx0 : ¬ (x ≤ 0) := not_le.mpr (lt_of_lt_of_le (by exact_mod_cast hlo) h1)
  have hx255 : ¬ ((255 : ℚ) ≤ x) := not_le.mpr (lt_of_le_of_lt h2 (by exact_mod_cast hhi))
  rw [toUint8Clamp, if_neg hx0, if_neg hx255]
  constructor
  · have h := roundHalfEven_mono h1
    rwa [roundHalfEven_intCast] at h
  · have h := roundHalfEven_mono h2
    rwa [roundHalfEven_intCast] at h

/-! ### Lemmas about the pixel loops -/

lemma multLoop_nil (p : DuotoneParams) : multLoop p [] = [] := rfl

lemma multLoop_cons4 (p : DuotoneParams) (r g b a : ℤ) (rest : List ℤ) :
    multLoop p (r :: g :: b :: a :: rest) =
      (multPixel p r g b).1 :: (multPixel p r g b).2.1 :: (multPixel p r g b).2.2 ::
        a :: multLoop p rest := rfl

lemma multLoop_length (p : DuotoneParams) : ∀ l : List ℤ, (multLoop p l).length = l.length
  | [] => rfl
  | [_] => rfl
  | [_, _] => rfl
  | [_, _, _] => rfl
  | r :: g :: b :: a :: rest => by
    rw [multLoop_cons4]
    simp only [List.length_cons, multLoop_length p rest]

lemma multLoop_getD_alpha (p : DuotoneParams) (d : ℤ) :
    ∀ (l : List ℤ) (i : ℕ), (multLoop p l).getD (4 * i + 3) d = l.getD (4 * i + 3) d
  | [], _ => rfl
  | [_], _ => rfl
  | [_, _], _ => rfl
  | [_, _, _], _ => rfl
  | r :: g :: b :: a :: rest, 0 => by
    rw [multLoop_cons4]
    rfl
  | r :: g :: b :: a :: rest, (i + 1) => by
    rw [multLoop_cons4]
    have h4 : 4 * (i + 1) + 3 = 4 * i + 3 + 1 + 1 + 1 + 1 := by ring
    rw [h4]
    simp only [List.getD_cons_succ]
    exact multLoop_getD_alpha p d rest i

lemma anchorLoop_nil : anchorLoop [] = [] := rfl

lemma anchorLoop_cons4 (r g b a : ℤ) (rest : List ℤ) :
    anchorLoop (r :: g :: b :: a :: rest) =
      (anchorPixel shadowColor highlightColor r g b).1 ::
        (anchorPixel shadowColor highlightColor r g b).2.1 ::
        (anchorPixel shadowColor highlightColor r g b).2.2 :: a :: anchorLoop rest := rfl

/-! ### Concrete evaluations -/

lemma avgOf_90 : avgOf 90 90 90 = 90 := by norm_num [avgOf]

lemma avgOf_90_pos : 0 < avgOf 90 90 90 := by norm_num [avgOf]

lemma ratioOf_255 : ratioOf 255 255 255 = 1 := by norm_num [ratioOf, avgOf]

lemma shadowColor_r : shadowColor.r = 22 := by decide

lemma shadowColor_g : shadowColor.g = 80 := by decide

lemma shadowColor_b : shadowColor.b = 39 := by decide

lemma highlightColor_r : highlightColor.r = 249 := by decide

lemma highlightColor_g : highlightColor.g = 159 := by decide

lemma highlightColor_b : highlightColor.b = 210 := by decide

lemma multPixel_eval (p : DuotoneParams) (r g b : ℤ) (vR vG vB : ℤ)
    (hR : min 255 (avgOf r g b * p.redMultiplier) = (vR : ℚ)) (hR1 : 0 < vR) (hR2 : vR < 255)
    (hG : min 255 (avgOf r g b * p.greenMultiplier) = (vG : ℚ)) (hG1 : 0 < vG) (hG2 : vG < 255)
    (hB : min 255 (avgOf r g b * p.blueMultiplier) = (vB : ℚ)) (hB1 : 0 < vB) (hB2 : vB < 255) :
    multPixel p r g b = (vR, vG, vB) := by
  unfold multPixel
  rw [toUint8Clamp_eq_of_eq_intCast hR hR1 hR2, toUint8Clamp_eq_of_eq_intCast hG hG1 hG2,
    toUint8Clamp_eq_of_eq_intCast hB hB1 hB2]

lemma multPixel_default_90 :
    multPixel DEFAULT_DUOTONE_PARAMS 90 90 90 = (45, 18, 108) :=
  multPixel_eval DEFAULT_DUOTONE_PARAMS 90 90 90 45 18 108
    (by rw [avgOf_90]; norm_num [DEFAULT_DUOTONE_PARAMS, min_def]) (by norm_num) (by norm_num)
    (by rw [avgOf_90]; norm_num [DEFAULT_DUOTONE_PARAMS, min_def]) (by norm_num) (by norm_num)
    (by rw [avgOf_90]; norm_num [DEFAULT_DUOTONE_PARAMS, min_def]) (by norm_num) (by norm_num)

lemma multPixel_ones_90 :
    multPixel { redMultiplier := 1, greenMultiplier := 1, blueMultiplier := 1 } 90 90 90 =
      (90, 90, 90) :=
  multPixel_eval _ 90 90 90 90 90 90
    (by rw [avgOf_90]; norm_num [min_def]) (by norm_num) (by norm_num)
    (by rw [avgOf_90]; norm_num [min_def]) (by norm_num) (by norm_num)
    (by rw [avgOf_90]; norm_num [min_def]) (by norm_num) (by norm_num)

lemma applyDuotoneEffect_default_90 :
    MultiplierMode.applyDuotoneEffect DEFAULT_DUOTONE_PARAMS
      { width := 1, height := 1, data := [90, 90, 90, 255] } =
      { width := 1, height := 1, data := [45, 18, 108, 255] } := by
  simp only [MultiplierMode.applyDuotoneEffect, multLoop_cons4, multLoop_nil,
    multPixel_default_90]

lemma applyDuotoneEffect_ones_90 :
    MultiplierMode.applyDuotoneEffect { redMultiplier := 1, greenMultiplier := 1, blueMultiplier := 1 }
      { width := 1, height := 1, data := [90, 90, 90, 255] } =
      { width := 1, height := 1, data := [90, 90, 90, 255] } := by
  simp only [MultiplierMode.applyDuotoneEffect, multLoop_cons4, multLoop_nil,
    multPixel_ones_90]

lemma anchorPixel_eval (sh hi : Rgb) (r g b : ℤ) (vR vG vB : ℤ)
    (hR : min 255 ((sh.r : ℚ) + ((hi.r : ℚ) - (sh.r : ℚ)) * ratioOf r g b) = (vR : ℚ))
    (hR1 : 0 < vR) (hR2 : vR < 255)
    (hG : min 255 ((sh.g : ℚ) + ((hi.g : ℚ) - (sh.g : ℚ)) * ratioOf r g b) = (vG : ℚ))
    (hG1 : 0 < vG) (hG2 : vG < 255)
    (hB : min 255 ((sh.b : ℚ) + ((hi.b : ℚ) - (sh.b : ℚ)) * ratioOf r g b) = (vB : ℚ))
    (hB1 : 0 < vB) (hB2 : vB < 255) :
    anchorPixel sh hi r g b = (vR, vG, vB) := by
  unfold anchorPixel
  rw [toUint8Clamp_eq_of_eq_intCast hR hR1 hR2, toUint8Clamp_eq_of_eq_intCast hG hG1 hG2,
    toUint8Clamp_eq_of_eq_intCast hB hB1 hB2]

lemma anchorPixel_white :
    anchorPixel shadowColor highlightColor 255 255 255 = (249, 159, 210) :=
  anchorPixel_eval shadowColor highlightColor 255 255 255 249 159 210
    (by rw [ratioOf_255, shadowColor_r, highlightColor_r]; norm_num [min_def])
    (by norm_num) (by norm_num)
    (by rw [ratioOf_255, shadowColor_g, highlightColor_g]; norm_num [min_def])
    (by norm_num) (by norm_num)
    (by rw [ratioOf_255, shadowColor_b, highlightColor_b]; norm_num [min_def])
    (by norm_num) (by norm_num)

/-! ### Lemmas about the pipeline state model -/

lemma runCompletions_cons :
    ∀ (results : List (Option PixelBuffer)) (x : Option PixelBuffer) (st : AppState)
      (d : Option PixelBuffer),
      (runCompletions st (x :: results)).duotoneImage = ((x :: results).getLast?).getD d
  | [], x, st, d => rfl
  | y :: rest, x, st, d => by
    rw [List.getLast?_cons_cons]
    exact runCompletions_cons rest y (completeProcessImage st x) d

lemma runCompletions_duotoneImage (results : List (Option PixelBuffer)) (st : AppState) :
    (runCompletions st results).duotoneImage = (results.getLast?).getD st.duotoneImage := by
  cases results with
  | nil => rfl
  | cons x rest => exact runCompletions_cons rest x st st.duotoneImage

lemma foldl_rerun_getLast (orig : PixelBuffer) :
    ∀ (ps : List DuotoneParams) (q : DuotoneParams) (st : AppState),
      ((q :: ps).foldl (rerunOnParamChange orig) st).duotoneImage =
        some (MultiplierMode.applyDuotoneEffect ((q :: ps).getLast (List.cons_ne_nil q ps)) orig)
  | [], q, st => rfl
  | q' :: ps, q, st => by
    rw [List.foldl_cons, List.getLast_cons (List.cons_ne_nil q' ps)]
    exact foldl_rerun_getLast orig ps q' (rerunOnParamChange orig st q)

/-! ### The claims -/

/-- Claim C1: for every input pixel and every duotone parameterization —
including a negative multiplier in multiplier mode and anchor colors
where a shadow channel exceeds the highlight channel — each output RGB
channel value of the duotone transform lies within 0..255 inclusive:
the store into the Uint8ClampedArray clamps both bounds. -/
theorem c1_output_channels_clamped_to_byte_range :
    ∀ (p : DuotoneParams) (sh hi : Rgb) (r g b : ℤ),
      (0 ≤ (multPixel p r g b).1 ∧ (multPixel p r g b).1 ≤ 255) ∧
      (0 ≤ (multPixel p r g b).2.1 ∧ (multPixel p r g b).2.1 ≤ 255) ∧
      (0 ≤ (multPixel p r g b).2.2 ∧ (multPixel p r g b).2.2 ≤ 255) ∧
      (0 ≤ (anchorPixel sh hi r g b).1 ∧ (anchorPixel sh hi r g b).1 ≤ 255) ∧
      (0 ≤ (anchorPixel sh hi r g b).2.1 ∧ (anchorPixel sh hi r g b).2.1 ≤ 255) ∧
      (0 ≤ (anchorPixel sh hi r g b).2.2 ∧ (anchorPixel sh hi r g b).2.2 ≤ 255) :=
  fun p sh hi r g b =>
    ⟨⟨toUint8Clamp_nonneg _, toUint8Clamp_le _⟩, ⟨toUint8Clamp_nonneg _, toUint8Clamp_le _⟩,
      ⟨toUint8Clamp_nonneg _, toUint8Clamp_le _⟩, ⟨toUint8Clamp_nonneg _, toUint8Clamp_le _⟩,
      ⟨toUint8Clamp_nonneg _, toUint8Clamp_le _⟩, ⟨toUint8Clamp_nonneg _, toUint8Clamp_le _⟩⟩

/-- Claim C2: in multiplier mode with the default multipliers
(0.5, 0.2, 1.2), a 1x1 buffer with RGBA (90, 90, 90, 255) maps to
(45, 18, 108, 255): avg is 90, each channel is the clamp of avg times
its multiplier, and the alpha byte is unchanged. -/
theorem c2_multiplier_scenario_90 :
    MultiplierMode.applyDuotoneEffect DEFAULT_DUOTONE_PARAMS
      { width := 1, height := 1, data := [90, 90, 90, 255] } =
      { width := 1, height := 1, data := [45, 18, 108, 255] } :=
  applyDuotoneEffect_default_90

/-- Claim C3: in anchor-color mode with shadow (22, 80, 39) and
highlight (249, 159, 210) — the colors decoded from the hex literals —
a 1x1 buffer with RGBA (255, 255, 255, 200) maps to
(249, 159, 210, 200): avg 255 gives ratio 1, each channel lands on the
highlight value, and the alpha byte 200 is unchanged. -/
theorem c3_anchor_scenario_white :
    hexToRgb "#165027" = { r := 22, g := 80, b := 39 } ∧
    hexToRgb "#f99fd2" = { r := 249, g := 159, b := 210 } ∧
    AnchorMode.applyDuotoneEffect { width := 1, height := 1, data := [255, 255, 255, 200] } =
      { width := 1, height := 1, data := [249, 159, 210, 200] } := by
  refine ⟨by decide, by decide, ?_⟩
  simp only [AnchorMode.applyDuotoneEffect, anchorLoop_cons4, anchorLoop_nil, anchorPixel_white]

/-- Claim C4: for every valid PixelBuffer and non-negative multipliers,
the multiplier-mode transform keeps the width and the height, and the
alpha byte of every pixel (position 4i+3 of the data array) is equal to
the input alpha byte; only R, G, B are rewritten. -/
theorem c4_dimensions_and_alpha_preserved :
    ∀ (p : DuotoneParams) (pb : PixelBuffer), pb.valid →
      0 ≤ p.redMultiplier → 0 ≤ p.greenMultiplier → 0 ≤ p.blueMultiplier →
      (MultiplierMode.applyDuotoneEffect p pb).width = pb.width ∧
      (MultiplierMode.applyDuotoneEffect p pb).height = pb.height ∧
      ∀ i : ℕ, i < pb.width * pb.height →
        ((MultiplierMode.applyDuotoneEffect p pb).data).getD (4 * i + 3) 0 =
          pb.data.getD (4 * i + 3) 0 := by
  intro p pb hv h1 h2 h3
  exact ⟨rfl, rfl, fun i _ => multLoop_getD_alpha p 0 pb.data i⟩

/-- Witness for C4 at the 1x1 buffer (90, 90, 90, 255) and all-ones
multipliers. -/
theorem c4_dimensions_and_alpha_preserved_witness :
    PixelBuffer.valid { width := 1, height := 1, data := [90, 90, 90, 255] } ∧
    (0 : ℚ) ≤ 1 ∧ (0 : ℕ) < 1 * 1 ∧
    (MultiplierMode.applyDuotoneEffect
        { redMultiplier := 1, greenMultiplier := 1, blueMultiplier := 1 }
        { width := 1, height := 1, data := [90, 90, 90, 255] }).width = 1 ∧
    ((MultiplierMode.applyDuotoneEffect
        { redMultiplier := 1, greenMultiplier := 1, blueMultiplier := 1 }
        { width := 1, height := 1, data := [90, 90, 90, 255] }).data).getD (4 * 0 + 3) 0 =
      ([90, 90, 90, 255] : List ℤ).getD (4 * 0 + 3) 0 :=
  ⟨by exact ⟨by decide, by decide⟩, zero_le_one, by decide,
    (c4_dimensions_and_alpha_preserved
        { redMultiplier := 1, greenMultiplier := 1, blueMultiplier := 1 }
        { width := 1, height := 1, data := [90, 90, 90, 255] }
        (by exact ⟨by decide, by decide⟩) zero_le_one zero_le_one zero_le_one).1,
    (c4_dimensions_and_alpha_preserved
        { redMultiplier := 1, greenMultiplier := 1, blueMultiplier := 1 }
        { width := 1, height := 1, data := [90, 90, 90, 255] }
        (by exact ⟨by decide, by decide⟩) zero_le_one zero_le_one zero_le_one).2.2 0 (by decide)⟩

/-- Counterexample to Claim C5: when the decode step fails (the promise
resolves null on the onerror signal), processImage stores null with
setDuotoneImage yet leaves originalImage set: the retained stale
original-image reference is NOT cleared, because the catch block that
would clear it is unreachable — the awaited promise resolves null
rather than rejecting. -/
theorem c5_counterexample_original_retained :
    (processImage
        { originalImage := some "stale-source",
          duotoneImage := some { width := 1, height := 1, data := [0, 0, 0, 255] },
          isProcessing := true }
        DEFAULT_DUOTONE_PARAMS .errored).duotoneImage = none ∧
    (processImage
        { originalImage := some "stale-source",
          duotoneImage := some { width := 1, height := 1, data := [0, 0, 0, 255] },
          isProcessing := true }
        DEFAULT_DUOTONE_PARAMS .errored).originalImage ≠ none :=
  ⟨rfl, Option.some_ne_none _⟩

/-- Claim C5 as amended: on decode failure the pipeline yields no
artifact and clears the previously displayed artifact (duotoneImage
becomes null) and resets the processing flag, but the original-image
reference is retained unchanged, not cleared: originalImage is cleared
only by the catch branch, which the decode-failure path never
reaches. -/
theorem c5_amended_failure_clears_artifact_only :
    ∀ (st : AppState) (p : DuotoneParams),
      (processImage st p .errored).duotoneImage = none ∧
      (processImage st p .errored).originalImage = st.originalImage ∧
      (processImage st p .errored).isProcessing = false :=
  fun st p => ⟨rfl, rfl, rfl⟩

/-- Counterexample to Claim C6: there is no stale-result suppression in
processImage, so when the transform for the newer parameter set
(all-ones multipliers) completes first and the older transform (default
multipliers) completes after it, the displayed artifact ends up being
the older transform's result, which differs from the newer one — the
most recent parameter set's result is not the one presented. -/
theorem c6_counterexample_stale_overwrite :
    (runCompletions
        { originalImage := some "src", duotoneImage := none, isProcessing := true }
        [some (MultiplierMode.applyDuotoneEffect
            { redMultiplier := 1, greenMultiplier := 1, blueMultiplier := 1 }
            { width := 1, height := 1, data := [90, 90, 90, 255] }),
         some (MultiplierMode.applyDuotoneEffect DEFAULT_DUOTONE_PARAMS
            { width := 1, height := 1, data := [90, 90, 90, 255] })]).duotoneImage =
      some (MultiplierMode.applyDuotoneEffect DEFAULT_DUOTONE_PARAMS
        { width := 1, height := 1, data := [90, 90, 90, 255] }) ∧
    MultiplierMode.applyDuotoneEffect DEFAULT_DUOTONE_PARAMS
        { width := 1, height := 1, data := [90, 90, 90, 255] } ≠
      MultiplierMode.applyDuotoneEffect
        { redMultiplier := 1, greenMultiplier := 1, blueMultiplier := 1 }
        { width := 1, height := 1, data := [90, 90, 90, 255] } := by
  constructor
  · rfl
  · rw [applyDuotoneEffect_default_90, applyDuotoneEffect_ones_90]
    decide

/-- Claim C6 as amended: the displayed artifact after a burst of
in-flight transforms is the result of whichever transform completes
last (completion order wins), regardless of which parameter set is most
recent; processImage applies no stale-result suppression. -/
theorem c6_amended_last_completion_wins :
    ∀ (st : AppState) (results : List (Option PixelBuffer)),
      (runCompletions st results).duotoneImage = (results.getLast?).getD st.duotoneImage :=
  fun st results => runCompletions_duotoneImage results st

/-- Claim C7: the transform is a pure function of the parameters and
the buffer — the stored result of processImage does not depend on any
prior component state — and every parameter change re-runs the
transform on the original decoded buffer, so a burst of parameter
changes ends with exactly the single-run result of the last parameter
set applied to the original source. -/
theorem c7_pure_and_reruns_from_original :
    (∀ (st st' : AppState) (p : DuotoneParams) (o : LoadOutcome),
        (processImage st p o).duotoneImage = (processImage st' p o).duotoneImage) ∧
    (∀ (orig : PixelBuffer) (st : AppState) (q : DuotoneParams) (ps : List DuotoneParams),
        ((q :: ps).foldl (rerunOnParamChange orig) st).duotoneImage =
          some (MultiplierMode.applyDuotoneEffect
            ((q :: ps).getLast (List.cons_ne_nil q ps)) orig)) :=
  ⟨fun st st' p o => rfl, fun orig st q ps => foldl_rerun_getLast orig ps q st⟩

/-- Claim C8: in multiplier mode, for every pixel with positive average
and fixed values of the other two multipliers, each output channel is
monotonically non-decreasing in its own multiplier. -/
theorem c8_channel_monotone_in_multiplier :
    ∀ (r g b : ℤ) (mr mg mb m m' : ℚ), 0 < avgOf r g b → m ≤ m' →
      (multPixel { redMultiplier := m, greenMultiplier := mg, blueMultiplier := mb } r g b).1 ≤
        (multPixel { redMultiplier := m', greenMultiplier := mg, blueMultiplier := mb } r g b).1 ∧
      (multPixel { redMultiplier := mr, greenMultiplier := m, blueMultiplier := mb } r g b).2.1 ≤
        (multPixel { redMultiplier := mr, greenMultiplier := m', blueMultiplier := mb } r g b).2.1 ∧
      (multPixel { redMultiplier := mr, greenMultiplier := mg, blueMultiplier := m } r g b).2.2 ≤
        (multPixel { redMultiplier := mr, greenMultiplier := mg, blueMultiplier := m' } r g b).2.2 := by
  intro r g b mr mg mb m m' havg hm
  have key : toUint8Clamp (min 255 (avgOf r g b * m)) ≤
      toUint8Clamp (min 255 (avgOf r g b * m')) :=
    toUint8Clamp_mono (min_le_min (le_refl _) (mul_le_mul_of_nonneg_left hm havg.le))
  exact ⟨key, key, key⟩

/-- Witness for C8 at the pixel (90, 90, 90) with the red multiplier
raised from 0 to 1. -/
theorem c8_channel_monotone_in_multiplier_witness :
    0 < avgOf 90 90 90 ∧ (0 : ℚ) ≤ 1 ∧
      (multPixel { redMultiplier := 0, greenMultiplier := 1, blueMultiplier := 1 } 90 90 90).1 ≤
        (multPixel { redMultiplier := 1, greenMultiplier := 1, blueMultiplier := 1 } 90 90 90).1 :=
  ⟨avgOf_90_pos, zero_le_one,
    (c8_channel_monotone_in_multiplier 90 90 90 1 1 1 0 1 avgOf_90_pos zero_le_one).1⟩

/-- Claim C9: one invocation of applyDuotoneEffect settles in exactly
one of two mutually exclusive ways once the load/error signal arrives —
success with an artifact, or failure with null — never both, never
neither; decode failures are converted into the resolved null value and
never escape as a rejection. -/
theorem c9_settles_success_xor_failure :
    ∀ (p : DuotoneParams) (o : LoadOutcome),
      Xor' (∃ a, applyDuotoneEffectResolved p o = some a)
        (applyDuotoneEffectResolved p o = none) ∧
      (∀ buf, applyDuotoneEffectResolved p (.loaded buf) =
        some (MultiplierMode.applyDuotoneEffect p buf)) ∧
      applyDuotoneEffectResolved p .errored = none ∧
      applyDuotoneEffectResolved p .ctxUnavailable = none := by
  intro p o
  refine ⟨?_, fun buf => rfl, rfl, rfl⟩
  cases o with
  | loaded buf =>
    exact Or.inl ⟨⟨MultiplierMode.applyDuotoneEffect p buf, rfl⟩,
      Option.some_ne_none _⟩
  | errored =>
    refine Or.inr ⟨rfl, ?_⟩
    rintro ⟨a, ha⟩
    exact Option.noConfusion ha
  | ctxUnavailable =>
    refine Or.inr ⟨rfl, ?_⟩
    rintro ⟨a, ha⟩
    exact Option.noConfusion ha

/-- Claim C10: in anchor-color mode with the fixed shadow (22, 80, 39)
and highlight (249, 159, 210), every output channel lies in the closed
interval between the shadow and highlight values of that channel — red
in 22..249, green in 80..159, blue in 39..210 — for every input pixel,
so the transform never produces a pure black or pure white pixel. -/
theorem c10_anchor_output_between_shadow_and_highlight :
    ∀ (r g b : ℤ), 0 ≤ r → r ≤ 255 → 0 ≤ g → g ≤ 255 → 0 ≤ b → b ≤ 255 →
      (22 ≤ (anchorPixel shadowColor highlightColor r g b).1 ∧
        (anchorPixel shadowColor highlightColor r g b).1 ≤ 249) ∧
      (80 ≤ (anchorPixel shadowColor highlightColor r g b).2.1 ∧
        (anchorPixel shadowColor highlightColor r g b).2.1 ≤ 159) ∧
      (39 ≤ (anchorPixel shadowColor highlightColor r g b).2.2 ∧
        (anchorPixel shadowColor highlightColor r g b).2.2 ≤ 210) ∧
      anchorPixel shadowColor highlightColor r g b ≠ (0, 0, 0) ∧
      anchorPixel shadowColor highlightColor r g b ≠ (255, 255, 255) := by
  intro r g b hr0 hr1 hg0 hg1 hb0 hb1
  have hrq : (0 : ℚ) ≤ (r : ℚ) := by exact_mod_cast hr0
  have hrq' : (r : ℚ) ≤ 255 := by exact_mod_cast hr1
  have hgq : (0 : ℚ) ≤ (g : ℚ) := by exact_mod_cast hg0
  have hgq' : (g : ℚ) ≤ 255 := by exact_mod_cast hg1
  have hbq : (0 : ℚ) ≤ (b : ℚ) := by exact_mod_cast hb0
  have hbq' : (b : ℚ) ≤ 255 := by exact_mod_cast hb1
  have hρ0 : 0 ≤ ratioOf r g b := by
    unfold ratioOf avgOf
    apply div_nonneg (div_nonneg (by linarith) (by norm_num)) (by norm_num)
  have hρ1 : ratioOf r g b ≤ 1 := by
    unfold ratioOf avgOf
    rw [div_le_one (by norm_num), div_le_iff₀ (by norm_num)]
    linarith
  have h1R : ((22 : ℤ) : ℚ) ≤ min 255 ((shadowColor.r : ℚ) +
      ((highlightColor.r : ℚ) - (shadowColor.r : ℚ)) * ratioOf r g b) := by
    rw [shadowColor_r, highlightColor_r]
    push_cast
    refine le_min (by norm_num) ?_
    nlinarith [hρ0, hρ1]
  have h2R : min (255 : ℚ) ((shadowColor.r : ℚ) +
      ((highlightColor.r : ℚ) - (shadowColor.r : ℚ)) * ratioOf r g b) ≤ ((249 : ℤ) : ℚ) := by
    rw [shadowColor_r, highlightColor_r]
    refine (min_le_right _ _).trans ?_
    push_cast
    nlinarith [hρ0, hρ1]
  have hR : 22 ≤ (anchorPixel shadowColor highlightColor r g b).1 ∧
      (anchorPixel shadowColor highlightColor r g b).1 ≤ 249 :=
    toUint8Clamp_between (by norm_num) (by norm_num) h1R h2R
  have h1G : ((80 : ℤ) : ℚ) ≤ min 255 ((shadowColor.g : ℚ) +
      ((highlightColor.g : ℚ) - (shadowColor.g : ℚ)) * ratioOf r g b) := by
    rw [shadowColor_g, highlightColor_g]
    push_cast
    refine le_min (by norm_num) ?_
    nlinarith [hρ0, hρ1]
  have h2G : min (255 : ℚ) ((shadowColor.g : ℚ) +
      ((highlightColor.g : ℚ) - (shadowColor.g : ℚ)) * ratioOf r g b) ≤ ((159 : ℤ) : ℚ) := by
    rw [shadowColor_g, highlightColor_g]
    refine (min_le_right _ _).trans ?_
    push_cast
    nlinarith [hρ0, hρ1]
  have hG : 80 ≤ (anchorPixel shadowColor highlightColor r g b).2.1 ∧
      (anchorPixel shadowColor highlightColor r g b).2.1 ≤ 159 :=
    toUint8Clamp_between (by norm_num) (by norm_num) h1G h2G
  have h1B : ((39 : ℤ) : ℚ) ≤ min 255 ((shadowColor.b : ℚ) +
      ((highlightColor.b : ℚ) - (shadowColor.b : ℚ)) * ratioOf r g b) := by
    rw [shadowColor_b, highlightColor_b]
    push_cast
    refine le_min (by norm_num) ?_
    nlinarith [hρ0, hρ1]
  have h2B : min (255 : ℚ) ((shadowColor.b : ℚ) +
      ((highlightColor.b : ℚ) - (shadowColor.b : ℚ)) * ratioOf r g b) ≤ ((210 : ℤ) : ℚ) := by
    rw [shadowColor_b, highlightColor_b]
    refine (min_le_right _ _).trans ?_
    push_cast
    nlinarith [hρ0, hρ1]
  have hB : 39 ≤ (anchorPixel shadowColor highlightColor r g b).2.2 ∧
      (anchorPixel shadowColor highlightColor r g b).2.2 ≤ 210 :=
    toUint8Clamp_between (by norm_num) (by norm_num) h1B h2B
  refine ⟨hR, hG, hB, fun heq => ?_, fun heq => ?_⟩
  · have h0 : (anchorPixel shadowColor highlightColor r g b).1 = 0 := congrArg Prod.fst heq
    have h22 := hR.1
    omega
  · have h0 : (anchorPixel shadowColor highlightColor r g b).1 = 255 := congrArg Prod.fst heq
    have h249 := hR.2
    omega

/-- Witness for C10 at the all-black input pixel (0, 0, 0). -/
theorem c10_anchor_output_between_shadow_and_highlight_witness :
    (0 : ℤ) ≤ 0 ∧ (0 : ℤ) ≤ 255 ∧
      ((22 ≤ (anchorPixel shadowColor highlightColor 0 0 0).1 ∧
        (anchorPixel shadowColor highlightColor 0 0 0).1 ≤ 249) ∧
      (80 ≤ (anchorPixel shadowColor highlightColor 0 0 0).2.1 ∧
        (anchorPixel shadowColor highlightColor 0 0 0).2.1 ≤ 159) ∧
      (39 ≤ (anchorPixel shadowColor highlightColor 0 0 0).2.2 ∧
        (anchorPixel shadowColor highlightColor 0 0 0).2.2 ≤ 210) ∧
      anchorPixel shadowColor highlightColor 0 0 0 ≠ (0, 0, 0) ∧
      anchorPixel shadowColor highlightColor 0 0 0 ≠ (255, 255, 255)) :=
  ⟨le_refl 0, by decide,
    c10_anchor_output_between_shadow_and_highlight 0 0 0 (le_refl 0) (by decide)
      (le_refl 0) (by decide) (le_refl 0) (by decide)⟩

end BravePink
